import Mathlib

/-!
# Verification of es_gobot (src/es_gobot/bot.py)

A shallow embedding of the invite-link admission-control core of the bot:
the `protect_chat` join-guard handler, the credential store backed by the
`active_links` table (PRIMARY KEY on `user_id`), the `safe_send` retry
wrapper, and — because the `/link` issuance handler is referenced by `main`
but absent from the source — a spec-modelled `RequestLink` operation.

Times are modelled as `Int` (the code uses `int(time.time())` and INTEGER
columns).  Nullable TEXT columns and the possibly-absent
`member.invite_link.invite_link` attribute are modelled as `Option String`.
-/

set_option autoImplicit false

/-- Constant `LINK_EXPIRE = 15` from the configuration block of bot.py. -/
def LINK_EXPIRE : Int := 15

/-- Constant `LINK_COOLDOWN = 1800` from the configuration block of bot.py. -/
def LINK_COOLDOWN : Int := 1800

/-- Constant `LINK_GRACE = 10` from the configuration block of bot.py. -/
def LINK_GRACE : Int := 10

/-- Constant `LINK_LOCK_SECONDS = 3` from the configuration block of bot.py. -/
def LINK_LOCK_SECONDS : Int := 3

/-- One row of the `active_links` table:
`user_id TEXT PRIMARY KEY, invite_link TEXT, expire INTEGER`.
The key is carried by the store, so a row holds the two non-key columns;
`invite_link` is a nullable TEXT column, hence `Option String`. -/
structure CredRow where
  invite_link : Option String
  expire : Int
deriving Repr, DecidableEq

/-- The `active_links` table as an association list keyed by `user_id`. -/
abbrev CredStore := List (String × CredRow)

/-- The query `SELECT invite_link, expire FROM active_links WHERE user_id=%s` —
the PRIMARY KEY makes the row unique; lookup returns the first match. -/
def lookupCred (s : CredStore) (uid : String) : Option CredRow :=
  (s.find? (fun p => p.1 == uid)).map Prod.snd

/-- The statement `DELETE FROM active_links WHERE user_id=%s`. -/
def deleteCred (s : CredStore) (uid : String) : CredStore :=
  s.filter (fun p => p.1 != uid)

/-- Upsert into a table with `user_id` as PRIMARY KEY: the new row replaces
any previous row for the same key (last-writer-wins). -/
def upsertCred (s : CredStore) (uid : String) (row : CredRow) : CredStore :=
  (uid, row) :: deleteCred s uid

/-- The PRIMARY KEY constraint of the table: at most one row per `user_id`. -/
def distinctKeys (s : CredStore) : Prop :=
  (s.map Prod.fst).Nodup

instance (s : CredStore) : Decidable (distinctKeys s) := by
  unfold distinctKeys; infer_instance

/-- The fields of a `chat_member` update that `protect_chat` reads:
`new_chat_member.status` (a status string), the joining user's id
(converted to `str` by the handler), `getattr(member.invite_link,
"invite_link", None)`, and `member.chat.id`. -/
structure ChatMemberEvent where
  new_status : String
  user_id : String
  invite_link : Option String
  chat_id : Int
deriving Repr, DecidableEq

/-- The outcome of one `protect_chat` invocation. -/
inductive Decision
  | ignored
  | accepted
  | rejected
deriving Repr, DecidableEq

/-- An outbound platform call made by `protect_chat`. -/
inductive BotCall
  | ban_chat_member (chat_id : Int) (user_id : String)
  | unban_chat_member (chat_id : Int) (user_id : String)
deriving Repr, DecidableEq

/-- What one run of `protect_chat` produces: the decision taken, the
resulting `active_links` table, the platform calls attempted (in order),
and whether the `active_links` table was queried at all. -/
structure ProtectResult where
  decision : Decision
  store : CredStore
  calls : List BotCall
  store_read : Bool
deriving Repr, DecidableEq

/-- The eviction attempt of the reject branch of `protect_chat`:
`ban_chat_member` then `unban_chat_member` inside one `try`, with a bare
`except: pass`.  `banOk` says whether the ban call raises: when it raises,
control jumps to the `except` and the unban is never attempted; when the
ban succeeds the unban is attempted (its own failure is also swallowed by
the same `except`). -/
def evictionCalls (banOk : Bool) (e : ChatMemberEvent) : List BotCall :=
  if banOk then
    [BotCall.ban_chat_member e.chat_id e.user_id,
     BotCall.unban_chat_member e.chat_id e.user_id]
  else
    [BotCall.ban_chat_member e.chat_id e.user_id]

/-- The handler `protect_chat` from bot.py, lines 349–380.

```
if member.new_chat_member.status not in ("member", "restricted"): return
user_id = str(member.new_chat_member.user.id)
invite_link = getattr(member.invite_link, "invite_link", None)
now = int(time.time())
row = SELECT invite_link, expire FROM active_links WHERE user_id=%s
if not row or invite_link != row["invite_link"] or now > row["expire"] + LINK_GRACE:
    try: ban_chat_member(...); unban_chat_member(...)
    except: pass
    return
DELETE FROM active_links WHERE user_id=%s
```

`banOk` and `unbanOk` are the success of the two platform calls; both
failures are swallowed by the bare `except`, so the function always
returns normally.  `unbanOk` has no observable effect: an unban failure
is caught and nothing further happens. -/
def protect_chat (banOk unbanOk : Bool) (now : Int) (store : CredStore)
    (e : ChatMemberEvent) : ProtectResult :=
  if e.new_status ≠ "member" ∧ e.new_status ≠ "restricted" then
    ⟨Decision.ignored, store, [], false⟩
  else
    match lookupCred store e.user_id with
    | none => ⟨Decision.rejected, store, evictionCalls banOk e, true⟩
    | some row =>
      if e.invite_link ≠ row.invite_link ∨ now > row.expire + LINK_GRACE then
        ⟨Decision.rejected, store, evictionCalls banOk e, true⟩
      else
        ⟨Decision.accepted, deleteCred store e.user_id, [], true⟩

example :
    protect_chat true true 24 [("A", ⟨some "T", 15⟩)] ⟨"member", "A", some "T", 7⟩
      = ⟨Decision.accepted, [], [], true⟩ := by decide

example :
    protect_chat true true 26 [("A", ⟨some "T", 15⟩)] ⟨"member", "A", some "T", 7⟩
      = ⟨Decision.rejected, [("A", ⟨some "T", 15⟩)],
          [BotCall.ban_chat_member 7 "A", BotCall.unban_chat_member 7 "A"], true⟩ := by
  decide

example :
    protect_chat true true 5 [("A", ⟨some "T", 15⟩)] ⟨"left", "A", some "T", 7⟩
      = ⟨Decision.ignored, [("A", ⟨some "T", 15⟩)], [], false⟩ := by decide

/-! ## The link issuer, modelled from the spec

`main` registers `CommandHandler("link", link)`, but no function named
`link` is defined anywhere in bot.py: the issuance operation is absent
from this revision of the source.  The definitions below are therefore
modelled from the spec (§4.1 `RequestLink`), using the configuration
constants the source does define. -/

/-- A `last_requests` / `link_locks` style table: `user_id TEXT PRIMARY
KEY, timestamp INTEGER`. -/
abbrev MarkStore := List (String × Int)

/-- Lookup in a timestamp table keyed by `user_id`. -/
def lookupMark (s : MarkStore) (uid : String) : Option Int :=
  (s.find? (fun p => p.1 == uid)).map Prod.snd

/-- Upsert into a timestamp table with `user_id` as PRIMARY KEY. -/
def upsertMark (s : MarkStore) (uid : String) (t : Int) : MarkStore :=
  (uid, t) :: s.filter (fun p => p.1 != uid)

/-- Modelled from the spec: the persistent state `RequestLink` touches —
the credential store (`active_links`), the rate-limit marks
(`last_requests`) and the debounce marks (`link_locks`); the three tables
exist in `init_db` but no source function writes them. -/
structure IssuerState where
  creds : CredStore
  rate_marks : MarkStore
  lock_marks : MarkStore
deriving Repr, DecidableEq

/-- Modelled from the spec: the outcomes of `RequestLink` (§4.1, §7
error taxonomy). -/
inductive LinkOutcome
  | notConfigured
  | rateLimited (retry_after : Int)
  | duplicateNoOp
  | forbidden
  | issued (token : String)
deriving Repr, DecidableEq

/-- An outbound platform call made by the issuer. -/
inductive IssuerCall
  | createInvite (chat : String) (expire_at : Int) (member_limit : Nat)
deriving Repr, DecidableEq

/-- Modelled from the spec: the cooldown check — "read `RateLimitMark`
for `user_id`; if present and `now - last_issued_at < COOLDOWN`, fail
with `RateLimited(retry_after = COOLDOWN - (now - last_issued_at))`".
Returns the `retry_after` value when the request is rate-limited. -/
def rateBlocked (marks : MarkStore) (uid : String) (now : Int) : Option Int :=
  match lookupMark marks uid with
  | some last =>
      if now - last < LINK_COOLDOWN then some (LINK_COOLDOWN - (now - last)) else none
  | none => none

/-- Modelled from the spec: the debounce check — a request less than
`LOCK_WINDOW` (= `LINK_LOCK_SECONDS`) after the previous one is a
duplicate click and silently no-ops. -/
def lockBlocked (locks : MarkStore) (uid : String) (now : Int) : Bool :=
  match lookupMark locks uid with
  | some t => now - t < LINK_LOCK_SECONDS
  | none => false

/-- Modelled from the spec: `RequestLink(user_id, now)` (§4.1), the
`/link` handler missing from the source.  `setting` is
`get_setting("private_chat_id")`; `platformInvite` is the platform's
response to the invite-creation call (`none` models a terminal
`Forbidden` failure, after which the spec requires no state change).
Order of checks per the spec: configured-chat precondition, cooldown,
debounce, invite creation; on success upsert the rate mark, the lock
mark, and the credential (expiry `now + LINK_TTL`, replacing any prior
credential for the user). -/
def RequestLink (setting : Option String) (st : IssuerState) (uid : String)
    (now : Int) (platformInvite : Option String) :
    LinkOutcome × IssuerState × List IssuerCall :=
  match setting with
  | none => (LinkOutcome.notConfigured, st, [])
  | some chat =>
    match rateBlocked st.rate_marks uid now with
    | some retry => (LinkOutcome.rateLimited retry, st, [])
    | none =>
      if lockBlocked st.lock_marks uid now then
        (LinkOutcome.duplicateNoOp, st, [])
      else
        let calls := [IssuerCall.createInvite chat (now + LINK_EXPIRE) 1]
        match platformInvite with
        | none => (LinkOutcome.forbidden, st, calls)
        | some tok =>
            (LinkOutcome.issued tok,
             ⟨upsertCred st.creds uid ⟨some tok, now + LINK_EXPIRE⟩,
              upsertMark st.rate_marks uid now,
              upsertMark st.lock_marks uid now⟩,
             calls)

example :
    RequestLink (some "c") ⟨[], [], []⟩ "u" 0 (some "T")
      = (LinkOutcome.issued "T", ⟨[("u", ⟨some "T", 15⟩)], [("u", 0)], [("u", 0)]⟩,
          [IssuerCall.createInvite "c" 15 1]) := by decide

example :
    RequestLink (some "c") ⟨[("u", ⟨some "T", 15⟩)], [("u", 0)], [("u", 0)]⟩ "u" 5 none
      = (LinkOutcome.rateLimited 1795, ⟨[("u", ⟨some "T", 15⟩)], [("u", 0)], [("u", 0)]⟩,
          []) := by decide

/-! ## The `safe_send` retry wrapper

```
async def safe_send(func, *args, **kwargs):
    for _ in range(3):
        try:
            await asyncio.sleep(random.uniform(0.3, 1.2))
            return await func(*args, **kwargs)
        except (TimedOut, NetworkError, RetryAfter):
            await asyncio.sleep(2)
        except Forbidden:
            return None
    return None
```

Sleep durations are modelled in tenths of a second, so the jitter bounds
0.3s and 1.2s become 3 and 12 and the fixed backoff 2s becomes 20. -/

/-- What one attempt of the wrapped call does: return a value, raise one
of the transient errors (`TimedOut`, `NetworkError`, `RetryAfter`), or
raise `Forbidden`. -/
inductive AttemptOutcome
  | success (v : Nat)
  | transient
  | forbidden
deriving Repr, DecidableEq

/-- An event in the timeline of one `safe_send` run (durations in tenths
of a second): `sleepUniform lo hi` is `await asyncio.sleep(random.uniform
(lo/10, hi/10))`, `callAttempt` an invocation of the wrapped call,
`sleepFixed d` is `await asyncio.sleep(d/10)`. -/
inductive SendEvent
  | sleepUniform (lo hi : Nat)
  | callAttempt
  | sleepFixed (d : Nat)
deriving Repr, DecidableEq

/-- The loop body of `safe_send`: `fuel` iterations of `range` remain and
`i` attempts have already been made; `out` gives the outcome of each
attempt.  Returns the value `safe_send` returns (`none` is Python's
`None`) and the timeline of sleeps and call attempts. -/
def safe_sendGo (out : Nat → AttemptOutcome) : Nat → Nat → Option Nat × List SendEvent
  | 0, _ => (none, [])
  | fuel + 1, i =>
    match out i with
    | AttemptOutcome.success v =>
        (some v, [SendEvent.sleepUniform 3 12, SendEvent.callAttempt])
    | AttemptOutcome.forbidden =>
        (none, [SendEvent.sleepUniform 3 12, SendEvent.callAttempt])
    | AttemptOutcome.transient =>
        let rest := safe_sendGo out fuel (i + 1)
        (rest.1, SendEvent.sleepUniform 3 12 :: SendEvent.callAttempt ::
                   SendEvent.sleepFixed 20 :: rest.2)

/-- The wrapper `safe_send` itself: `for _ in range(3)` and the final `return None`. -/
def safe_send (out : Nat → AttemptOutcome) : Option Nat × List SendEvent :=
  safe_sendGo out 3 0

/-- Number of invocations of the wrapped call in a timeline. -/
def attemptCount (tr : List SendEvent) : Nat :=
  tr.countP (fun e => e == SendEvent.callAttempt)

/-- Every invocation of the wrapped call is immediately preceded by a
`random.uniform(0.3, 1.2)` sleep. -/
def preJittered : List SendEvent → Bool
  | [] => true
  | SendEvent.sleepUniform lo hi :: SendEvent.callAttempt :: rest =>
      lo == 3 && hi == 12 && preJittered rest
  | SendEvent.callAttempt :: _ => false
  | _ :: rest => preJittered rest

/-! ## Name resolution in `main`

Python resolves a global name when the referencing line executes.  `main`
builds the handler table with `CommandHandler("start", start)`,
`CommandHandler("link", link)`, … in source order; the first reference to
a name with no module-level definition raises `NameError` there, before
`run_polling` is reached. -/

/-- The module-level function names defined in bot.py, transcribed from
the source (every `def`/`async def` at column 0). -/
def moduleFunctionNames : List String :=
  ["get_db", "release_db", "init_db", "get_setting", "set_setting",
   "is_admin", "log_user", "safe_send", "user_commands_hint",
   "get_bots_list", "get_sites_list", "get_price_list", "get_contact_list",
   "get_job_list", "start", "addprice", "removeprice", "addcontact",
   "removecontact", "addjob", "removejob", "protect_chat", "setchat",
   "addbot", "removebot", "addsite", "removesite", "settings", "broadcast",
   "main"]

/-- The handler names `main` references, in registration order
(lines 479–501 of bot.py): the seventeen `CommandHandler` callbacks then
the `ChatMemberHandler` callback. -/
def mainHandlerRefs : List String :=
  ["start", "link", "bots", "sites", "setchat", "addbot", "removebot",
   "addsite", "removesite", "settings", "broadcast", "addprice",
   "removeprice", "addcontact", "removecontact", "addjob", "removejob",
   "protect_chat"]

/-- What calling `main` does, as far as name resolution goes: the first
referenced handler name with no module-level definition raises
`NameError`; if all resolve, control reaches `run_polling`. -/
inductive MainResult
  | nameError (name : String)
  | polling
deriving Repr, DecidableEq

/-- Evaluate `main`'s handler registrations in order. -/
def mainResult : MainResult :=
  match mainHandlerRefs.find? (fun n => !(moduleFunctionNames.contains n)) with
  | some n => MainResult.nameError n
  | none => MainResult.polling

/-- The target tables of the INSERT statements appearing anywhere in
bot.py, transcribed from the source (`set_setting`, `log_user`,
`addprice`, `addcontact`, `addjob`, `addbot`, `addsite`). -/
def insertTargetTables : List String :=
  ["settings", "users", "price_channels", "contact_channels",
   "job_channels", "bots", "sites"]

/-! ## Cooperative interleaving of store operations

The handlers run as asyncio tasks on one event loop; a task can be
suspended only at an `await`.  All database calls in bot.py are
synchronous psycopg2 calls, and on the accept path of `protect_chat`
there is no `await` between the SELECT and the DELETE (the only `await`s
of the handler are the ban/unban calls of the reject branch).  A task is
therefore a list of segments, each segment a list of store operations
executed without any suspension point between them; a schedule is an
order-preserving interleaving of the two tasks' segments. -/

/-- An atomic operation on the `active_links` table. -/
inductive StoreOp
  | read (uid : String)
  | del (uid : String)
  | upsert (uid : String) (row : CredRow)
deriving Repr, DecidableEq

/-- A run of store operations with no `await` between them. -/
abbrev Segment := List StoreOp

/-- Relation `Interleave xs ys zs`: `zs` is an order-preserving interleaving of
`xs` and `ys` — the schedules the event loop can produce from two tasks
with segment lists `xs` and `ys`. -/
inductive Interleave {α : Type} : List α → List α → List α → Prop
  | nil : Interleave [] [] []
  | left {x : α} {xs ys zs : List α} :
      Interleave xs ys zs → Interleave (x :: xs) ys (x :: zs)
  | right {y : α} {xs ys zs : List α} :
      Interleave xs ys zs → Interleave xs (y :: ys) (y :: zs)

/-- The store operations of `protect_chat`'s accept path: one segment —
SELECT then DELETE with no suspension point between them. -/
def guardAcceptTask (uid : String) : List Segment :=
  [[StoreOp.read uid, StoreOp.del uid]]

/-- Run a list of store operations over the table. -/
def execOps (s : CredStore) : List StoreOp → CredStore
  | [] => s
  | StoreOp.read _ :: rest => execOps s rest
  | StoreOp.del uid :: rest => execOps (deleteCred s uid) rest
  | StoreOp.upsert uid row :: rest => execOps (upsertCred s uid row) rest

/-! ## Branch lemmas for `protect_chat` -/

/-- The acceptance condition of the admission decision: a credential row
exists for the event's user, the observed invite link equals the stored
one, and the handler runs no later than `expire + LINK_GRACE`. -/
def acceptCond (store : CredStore) (now : Int) (e : ChatMemberEvent) : Prop :=
  ∃ row, lookupCred store e.user_id = some row ∧
    e.invite_link = row.invite_link ∧ now ≤ row.expire + LINK_GRACE

theorem protect_chat_eq_ignored (banOk unbanOk : Bool) (now : Int)
    (store : CredStore) (e : ChatMemberEvent)
    (h : e.new_status ≠ "member" ∧ e.new_status ≠ "restricted") :
    protect_chat banOk unbanOk now store e = ⟨Decision.ignored, store, [], false⟩ := by
  unfold protect_chat
  rw [if_pos h]

theorem protect_chat_eq_reject_none (banOk unbanOk : Bool) (now : Int)
    (store : CredStore) (e : ChatMemberEvent)
    (hs : ¬(e.new_status ≠ "member" ∧ e.new_status ≠ "restricted"))
    (h : lookupCred store e.user_id = none) :
    protect_chat banOk unbanOk now store e
      = ⟨Decision.rejected, store, evictionCalls banOk e, true⟩ := by
  unfold protect_chat
  rw [if_neg hs, h]

theorem protect_chat_eq_reject_stale (banOk unbanOk : Bool) (now : Int)
    (store : CredStore) (e : ChatMemberEvent) (row : CredRow)
    (hs : ¬(e.new_status ≠ "member" ∧ e.new_status ≠ "restricted"))
    (h : lookupCred store e.user_id = some row)
    (hc : e.invite_link ≠ row.invite_link ∨ now > row.expire + LINK_GRACE) :
    protect_chat banOk unbanOk now store e
      = ⟨Decision.rejected, store, evictionCalls banOk e, true⟩ := by
  unfold protect_chat
  rw [if_neg hs, h]
  exact if_pos hc

theorem protect_chat_eq_accept (banOk unbanOk : Bool) (now : Int)
    (store : CredStore) (e : ChatMemberEvent) (row : CredRow)
    (hs : ¬(e.new_status ≠ "member" ∧ e.new_status ≠ "restricted"))
    (h : lookupCred store e.user_id = some row)
    (hc : ¬(e.invite_link ≠ row.invite_link ∨ now > row.expire + LINK_GRACE)) :
    protect_chat banOk unbanOk now store e
      = ⟨Decision.accepted, deleteCred store e.user_id, [], true⟩ := by
  unfold protect_chat
  rw [if_neg hs, h]
  exact if_neg hc

/-- The decision of `protect_chat` on a present-state event is `accepted`
exactly when `acceptCond` holds. -/
theorem protect_chat_accept_iff (banOk unbanOk : Bool) (now : Int)
    (store : CredStore) (e : ChatMemberEvent)
    (hs : e.new_status = "member" ∨ e.new_status = "restricted") :
    (protect_chat banOk unbanOk now store e).decision = Decision.accepted ↔
      acceptCond store now e := by
  have hs' : ¬(e.new_status ≠ "member" ∧ e.new_status ≠ "restricted") := by
    rcases hs with h | h <;> simp [h]
  cases hrow : lookupCred store e.user_id with
  | none =>
      rw [protect_chat_eq_reject_none banOk unbanOk now store e hs' hrow]
      simp [acceptCond, hrow]
  | some row =>
      by_cases hc : e.invite_link ≠ row.invite_link ∨ now > row.expire + LINK_GRACE
      · rw [protect_chat_eq_reject_stale banOk unbanOk now store e row hs' hrow hc]
        simp only [acceptCond, hrow, Option.some.injEq]
        constructor
        · intro h; exact absurd h (by simp)
        · rintro ⟨row', hrow', hlink, htime⟩
          rcases hc with hne | hlate
          · exact absurd (hrow' ▸ hlink) hne
          · have : row' = row := hrow'.symm
            subst this
            omega
      · rw [protect_chat_eq_accept banOk unbanOk now store e row hs' hrow hc]
        push_neg at hc
        simp only [acceptCond, hrow, Option.some.injEq]
        constructor
        · intro _; exact ⟨row, rfl, hc.1, by omega⟩
        · intro _; trivial

/-- Non-acceptance on a present-state event gives the reject branch:
store untouched, eviction attempted. -/
theorem protect_chat_reject_of_not_accept (banOk unbanOk : Bool) (now : Int)
    (store : CredStore) (e : ChatMemberEvent)
    (hs : e.new_status = "member" ∨ e.new_status = "restricted")
    (hn : ¬ acceptCond store now e) :
    protect_chat banOk unbanOk now store e
      = ⟨Decision.rejected, store, evictionCalls banOk e, true⟩ := by
  have hs' : ¬(e.new_status ≠ "member" ∧ e.new_status ≠ "restricted") := by
    rcases hs with h | h <;> simp [h]
  cases hrow : lookupCred store e.user_id with
  | none => exact protect_chat_eq_reject_none banOk unbanOk now store e hs' hrow
  | some row =>
      refine protect_chat_eq_reject_stale banOk unbanOk now store e row hs' hrow ?_
      by_contra hc
      push_neg at hc
      exact hn ⟨row, hrow, hc.1, by omega⟩

/-! ## Claims -/

/-- C1: the join-event decision of `protect_chat` is exactly the spec's
admission function.  Events whose `new_status` is not `member` or
`restricted` are ignored with no store access and no eviction; a
present-state event is accepted iff a credential row exists for the
event's user, its observed invite link equals the stored `invite_link`
exactly, and the time is at most `expire + LINK_GRACE`; every other
present-state event is rejected with a ban followed by an unban and no
store change, regardless of timing. -/
theorem protect_chat_admission_decision (banOk unbanOk : Bool) (now : Int)
    (store : CredStore) (e : ChatMemberEvent) :
    (e.new_status ≠ "member" ∧ e.new_status ≠ "restricted" →
      protect_chat banOk unbanOk now store e = ⟨Decision.ignored, store, [], false⟩)
    ∧ ((e.new_status = "member" ∨ e.new_status = "restricted") →
        ((protect_chat banOk unbanOk now store e).decision = Decision.accepted ↔
          acceptCond store now e)
        ∧ (¬ acceptCond store now e →
            protect_chat true unbanOk now store e
              = ⟨Decision.rejected, store,
                  [BotCall.ban_chat_member e.chat_id e.user_id,
                   BotCall.unban_chat_member e.chat_id e.user_id], true⟩)) := by
  refine ⟨fun h => protect_chat_eq_ignored banOk unbanOk now store e h, fun hs => ⟨?_, ?_⟩⟩
  · exact protect_chat_accept_iff banOk unbanOk now store e hs
  · intro hn
    exact protect_chat_reject_of_not_accept true unbanOk now store e hs hn

/-- C1 witness: the admission decision at concrete inputs — a matching
in-window join is accepted, a mismatching join is rejected with ban then
unban, and a `left` transition is ignored. -/
theorem protect_chat_admission_decision_witness :
    (protect_chat true true 20 [("A", ⟨some "T", 15⟩)]
        ⟨"member", "A", some "T", 7⟩).decision = Decision.accepted
    ∧ protect_chat true true 20 [("A", ⟨some "T", 15⟩)] ⟨"member", "A", some "X", 7⟩
        = ⟨Decision.rejected, [("A", ⟨some "T", 15⟩)],
            [BotCall.ban_chat_member 7 "A", BotCall.unban_chat_member 7 "A"], true⟩
    ∧ protect_chat true true 20 [("A", ⟨some "T", 15⟩)] ⟨"left", "A", some "T", 7⟩
        = ⟨Decision.ignored, [("A", ⟨some "T", 15⟩)], [], false⟩ := by
  refine ⟨?_, ?_, ?_⟩
  · exact ((protect_chat_admission_decision true true 20 [("A", ⟨some "T", 15⟩)]
        ⟨"member", "A", some "T", 7⟩).2 (Or.inl rfl)).1.mpr
      ⟨⟨some "T", 15⟩, by decide, rfl, by decide⟩
  · exact ((protect_chat_admission_decision true true 20 [("A", ⟨some "T", 15⟩)]
        ⟨"member", "A", some "X", 7⟩).2 (Or.inl rfl)).2
      (by rintro ⟨row, hrow, hlink, -⟩; revert hlink; rw [show row = ⟨some "T", 15⟩ by
        have : some row = some (⟨some "T", 15⟩ : CredRow) := by rw [← hrow]; decide
        exact Option.some.inj this]; decide)
  · exact (protect_chat_admission_decision true true 20 [("A", ⟨some "T", 15⟩)]
        ⟨"left", "A", some "T", 7⟩).1 (by decide)

/-- Deleting a user's row makes the subsequent lookup for that user fail. -/
theorem lookupCred_deleteCred (s : CredStore) (uid : String) :
    lookupCred (deleteCred s uid) uid = none := by
  unfold lookupCred deleteCred
  have h : (s.filter (fun p => p.1 != uid)).find? (fun p => p.1 == uid) = none := by
    apply List.find?_eq_none.mpr
    intro x hx
    have hne := List.of_mem_filter hx
    simp only [bne_iff_ne, ne_eq] at hne
    simp [hne]
  rw [h]
  rfl

/-- When `protect_chat` accepts, the resulting store is the input store
with the user's row deleted. -/
theorem protect_chat_store_of_accept (banOk unbanOk : Bool) (now : Int)
    (store : CredStore) (e : ChatMemberEvent)
    (hacc : (protect_chat banOk unbanOk now store e).decision = Decision.accepted) :
    (protect_chat banOk unbanOk now store e).store = deleteCred store e.user_id := by
  by_cases hns : e.new_status ≠ "member" ∧ e.new_status ≠ "restricted"
  · rw [protect_chat_eq_ignored banOk unbanOk now store e hns] at hacc
    exact absurd hacc (by simp)
  · cases hrow : lookupCred store e.user_id with
    | none =>
        rw [protect_chat_eq_reject_none banOk unbanOk now store e hns hrow] at hacc
        exact absurd hacc (by simp)
    | some row =>
        by_cases hc : e.invite_link ≠ row.invite_link ∨ now > row.expire + LINK_GRACE
        · rw [protect_chat_eq_reject_stale banOk unbanOk now store e row hns hrow hc] at hacc
          exact absurd hacc (by simp)
        · rw [protect_chat_eq_accept banOk unbanOk now store e row hns hrow hc]

/-- C2: grace-window boundary.  For any stored credential and matching
join event, processing at `expire + LINK_GRACE` or earlier accepts and
deletes the credential row, while processing strictly later rejects
(with ban and unban attempted) even though the token matches; and in the
configured instance (`LINK_EXPIRE = 15`, `LINK_GRACE = 10`, issuance at
t = 0 so `expire = 15`), a matching join at t = 24 is accepted and a
matching join at t = 26 is rejected. -/
theorem protect_chat_grace_boundary (banOk unbanOk : Bool) (now : Int)
    (store : CredStore) (e : ChatMemberEvent) (row : CredRow)
    (hs : e.new_status = "member" ∨ e.new_status = "restricted")
    (hrow : lookupCred store e.user_id = some row)
    (hlink : e.invite_link = row.invite_link) :
    ((now ≤ row.expire + LINK_GRACE →
        protect_chat banOk unbanOk now store e
          = ⟨Decision.accepted, deleteCred store e.user_id, [], true⟩)
      ∧ (now > row.expire + LINK_GRACE →
        protect_chat banOk unbanOk now store e
          = ⟨Decision.rejected, store, evictionCalls banOk e, true⟩))
    ∧ ((protect_chat true true 24
          (RequestLink (some "c") ⟨[], [], []⟩ "A" 0 (some "T")).2.1.creds
          ⟨"member", "A", some "T", 7⟩).decision = Decision.accepted
      ∧ (protect_chat true true 26
          (RequestLink (some "c") ⟨[], [], []⟩ "A" 0 (some "T")).2.1.creds
          ⟨"member", "A", some "T", 7⟩).decision = Decision.rejected) := by
  have hs' : ¬(e.new_status ≠ "member" ∧ e.new_status ≠ "restricted") := by
    rcases hs with h | h <;> simp [h]
  refine ⟨⟨fun hle => ?_, fun hgt => ?_⟩, by decide, by decide⟩
  · exact protect_chat_eq_accept banOk unbanOk now store e row hs' hrow
      (by push_neg; exact ⟨hlink, by omega⟩)
  · exact protect_chat_eq_reject_stale banOk unbanOk now store e row hs' hrow (Or.inr hgt)

/-- C2 witness: the boundary at concrete inputs — `expire = 15`, a
matching join at t = 25 (= 15 + 10) accepted with the row deleted, one
at t = 26 rejected with ban then unban. -/
theorem protect_chat_grace_boundary_witness :
    protect_chat true true 25 [("A", ⟨some "T", 15⟩)] ⟨"member", "A", some "T", 7⟩
      = ⟨Decision.accepted, [], [], true⟩
    ∧ protect_chat true true 26 [("A", ⟨some "T", 15⟩)] ⟨"member", "A", some "T", 7⟩
      = ⟨Decision.rejected, [("A", ⟨some "T", 15⟩)],
          evictionCalls true ⟨"member", "A", some "T", 7⟩, true⟩ := by
  have h25 := protect_chat_grace_boundary true true 25 [("A", ⟨some "T", 15⟩)]
    ⟨"member", "A", some "T", 7⟩ ⟨some "T", 15⟩ (Or.inl rfl) (by decide) rfl
  have h26 := protect_chat_grace_boundary true true 26 [("A", ⟨some "T", 15⟩)]
    ⟨"member", "A", some "T", 7⟩ ⟨some "T", 15⟩ (Or.inl rfl) (by decide) rfl
  exact ⟨h25.1.1 (by decide), h26.1.2 (by decide)⟩

/-- C3: one-time use.  An acceptance deletes the credential row for the
event's user: afterwards the lookup fails, and every later join event
for the same user — in particular one presenting the same token — is
rejected if its status is a present state (and in no case accepted). -/
theorem protect_chat_one_time_use (banOk unbanOk banOk' unbanOk' : Bool)
    (now now' : Int) (store : CredStore) (e e' : ChatMemberEvent)
    (hacc : (protect_chat banOk unbanOk now store e).decision = Decision.accepted)
    (huser : e'.user_id = e.user_id) :
    lookupCred (protect_chat banOk unbanOk now store e).store e.user_id = none
    ∧ ((e'.new_status = "member" ∨ e'.new_status = "restricted") →
        protect_chat banOk' unbanOk' now' (protect_chat banOk unbanOk now store e).store e'
          = ⟨Decision.rejected, (protect_chat banOk unbanOk now store e).store,
              evictionCalls banOk' e', true⟩)
    ∧ (protect_chat banOk' unbanOk' now'
        (protect_chat banOk unbanOk now store e).store e').decision ≠ Decision.accepted := by
  have hstore := protect_chat_store_of_accept banOk unbanOk now store e hacc
  have hlook : lookupCred (protect_chat banOk unbanOk now store e).store e'.user_id = none := by
    rw [hstore, huser]
    exact lookupCred_deleteCred store e.user_id
  refine ⟨by rw [← huser]; exact hlook, fun hs => ?_, ?_⟩
  · exact protect_chat_eq_reject_none banOk' unbanOk' now' _ e'
      (by rcases hs with h | h <;> simp [h]) hlook
  · by_cases hns : e'.new_status ≠ "member" ∧ e'.new_status ≠ "restricted"
    · rw [protect_chat_eq_ignored banOk' unbanOk' now' _ e' hns]
      simp
    · rw [protect_chat_eq_reject_none banOk' unbanOk' now' _ e' hns hlook]
      simp

/-- C3 witness: after the accepted join of user A, a second identical
join finds no row and is rejected. -/
theorem protect_chat_one_time_use_witness :
    lookupCred (protect_chat true true 20 [("A", ⟨some "T", 15⟩)]
        ⟨"member", "A", some "T", 7⟩).store "A" = none
    ∧ protect_chat true true 21 (protect_chat true true 20 [("A", ⟨some "T", 15⟩)]
          ⟨"member", "A", some "T", 7⟩).store ⟨"member", "A", some "T", 7⟩
        = ⟨Decision.rejected, (protect_chat true true 20 [("A", ⟨some "T", 15⟩)]
            ⟨"member", "A", some "T", 7⟩).store,
            evictionCalls true ⟨"member", "A", some "T", 7⟩, true⟩ := by
  have h := protect_chat_one_time_use true true true true 20 21
    [("A", ⟨some "T", 15⟩)] ⟨"member", "A", some "T", 7⟩ ⟨"member", "A", some "T", 7⟩
    (by decide) rfl
  exact ⟨h.1, h.2.1 (Or.inl rfl)⟩

/-- Deletion preserves the primary-key invariant. -/
theorem distinctKeys_deleteCred (s : CredStore) (uid : String)
    (h : distinctKeys s) : distinctKeys (deleteCred s uid) := by
  unfold distinctKeys deleteCred at *
  exact List.Nodup.sublist (List.Sublist.map Prod.fst (List.filter_sublist s)) h

/-- Upsert preserves the primary-key invariant. -/
theorem distinctKeys_upsertCred (s : CredStore) (uid : String) (row : CredRow)
    (h : distinctKeys s) : distinctKeys (upsertCred s uid row) := by
  have hdel := distinctKeys_deleteCred s uid h
  unfold distinctKeys upsertCred at *
  rw [List.map_cons]
  refine List.nodup_cons.mpr ⟨?_, hdel⟩
  intro hmem
  obtain ⟨p, hp, hfst⟩ := List.mem_map.mp hmem
  have hne := List.of_mem_filter hp
  rw [hfst] at hne
  simp at hne

/-- An upsert makes the new row the one the lookup returns. -/
theorem lookupCred_upsertCred (s : CredStore) (uid : String) (row : CredRow) :
    lookupCred (upsertCred s uid row) uid = some row := by
  unfold lookupCred upsertCred
  rw [List.find?_cons_of_pos _ (by simp)]
  rfl

/-- C4: at most one live credential per `user_id` (the PRIMARY KEY
invariant is preserved by upsert and delete), and writing a new
credential for a user replaces the old one: on the upserted store the
lookup returns the new row, and a present-state join event for that user
presenting a token different from the new one — in particular the old
token — is rejected. -/
theorem credential_replacement (s : CredStore) (uid : String) (newRow : CredRow)
    (banOk unbanOk : Bool) (now : Int) (e : ChatMemberEvent)
    (hdk : distinctKeys s)
    (huser : e.user_id = uid)
    (hs : e.new_status = "member" ∨ e.new_status = "restricted")
    (hne : e.invite_link ≠ newRow.invite_link) :
    distinctKeys (upsertCred s uid newRow)
    ∧ distinctKeys (deleteCred s uid)
    ∧ lookupCred (upsertCred s uid newRow) uid = some newRow
    ∧ protect_chat banOk unbanOk now (upsertCred s uid newRow) e
        = ⟨Decision.rejected, upsertCred s uid newRow, evictionCalls banOk e, true⟩ := by
  refine ⟨distinctKeys_upsertCred s uid newRow hdk,
    distinctKeys_deleteCred s uid hdk,
    lookupCred_upsertCred s uid newRow, ?_⟩
  refine protect_chat_eq_reject_stale banOk unbanOk now _ e newRow
    (by rcases hs with h | h <;> simp [h]) ?_ (Or.inl hne)
  rw [huser]
  exact lookupCred_upsertCred s uid newRow

/-- C4 witness: after the new credential `U` replaces `T` for user A, a
join presenting the old token `T` is rejected. -/
theorem credential_replacement_witness :
    distinctKeys (upsertCred [("A", ⟨some "T", 15⟩)] "A" ⟨some "U", 40⟩)
    ∧ lookupCred (upsertCred [("A", ⟨some "T", 15⟩)] "A" ⟨some "U", 40⟩) "A"
        = some ⟨some "U", 40⟩
    ∧ protect_chat true true 20 (upsertCred [("A", ⟨some "T", 15⟩)] "A" ⟨some "U", 40⟩)
          ⟨"member", "A", some "T", 7⟩
        = ⟨Decision.rejected, upsertCred [("A", ⟨some "T", 15⟩)] "A" ⟨some "U", 40⟩,
            evictionCalls true ⟨"member", "A", some "T", 7⟩, true⟩ := by
  have h := credential_replacement [("A", ⟨some "T", 15⟩)] "A" ⟨some "U", 40⟩
    true true 20 ⟨"member", "A", some "T", 7⟩ (by decide) rfl (Or.inl rfl) (by decide)
  exact ⟨h.1, h.2.2.1, h.2.2.2⟩

/-- An upsert makes the new timestamp the one the lookup returns. -/
theorem lookupMark_upsertMark (s : MarkStore) (uid : String) (t : Int) :
    lookupMark (upsertMark s uid t) uid = some t := by
  unfold lookupMark upsertMark
  rw [List.find?_cons_of_pos _ (by simp)]
  rfl

/-- The success branch of `RequestLink`: configured chat, neither check
blocking, platform invite granted. -/
theorem RequestLink_success (st : IssuerState) (chat uid tok : String) (now : Int)
    (hrate : rateBlocked st.rate_marks uid now = none)
    (hlock : lockBlocked st.lock_marks uid now = false) :
    RequestLink (some chat) st uid now (some tok)
      = (LinkOutcome.issued tok,
         ⟨upsertCred st.creds uid ⟨some tok, now + LINK_EXPIRE⟩,
          upsertMark st.rate_marks uid now,
          upsertMark st.lock_marks uid now⟩,
         [IssuerCall.createInvite chat (now + LINK_EXPIRE) 1]) := by
  simp [RequestLink, hrate, hlock]

/-- C5: rate limiting of issuance.  After a successful issuance at `t1`,
a second `RequestLink` for the same user at any `t2` with
`t2 - t1 < LINK_COOLDOWN` fails with
`RateLimited(retry_after = LINK_COOLDOWN - (t2 - t1))`, leaves the whole
issuer state (credentials, rate marks, lock marks) unchanged, and makes
no platform call. -/
theorem RequestLink_cooldown_rate_limited (st : IssuerState)
    (chat chat2 uid tok : String) (t1 t2 : Int) (inv2 : Option String)
    (hrate : rateBlocked st.rate_marks uid t1 = none)
    (hlock : lockBlocked st.lock_marks uid t1 = false)
    (hcool : t2 - t1 < LINK_COOLDOWN) :
    (RequestLink (some chat) st uid t1 (some tok)).1 = LinkOutcome.issued tok
    ∧ RequestLink (some chat2) (RequestLink (some chat) st uid t1 (some tok)).2.1
          uid t2 inv2
        = (LinkOutcome.rateLimited (LINK_COOLDOWN - (t2 - t1)),
           (RequestLink (some chat) st uid t1 (some tok)).2.1, []) := by
  have h1 := RequestLink_success st chat uid tok t1 hrate hlock
  rw [h1]
  refine ⟨rfl, ?_⟩
  have hrate2 : rateBlocked (upsertMark st.rate_marks uid t1) uid t2
      = some (LINK_COOLDOWN - (t2 - t1)) := by
    unfold rateBlocked
    rw [lookupMark_upsertMark]
    simp [hcool]
  simp [RequestLink, hrate2]

/-- C5 witness: user B issued at t = 0, second request at t = 5 →
`RateLimited` with `retry_after = 1795` and no state change (the spec's
scenario). -/
theorem RequestLink_cooldown_rate_limited_witness :
    (RequestLink (some "c") ⟨[], [], []⟩ "B" 0 (some "T")).1 = LinkOutcome.issued "T"
    ∧ RequestLink (some "c") (RequestLink (some "c") ⟨[], [], []⟩ "B" 0 (some "T")).2.1
          "B" 5 none
        = (LinkOutcome.rateLimited 1795,
           (RequestLink (some "c") ⟨[], [], []⟩ "B" 0 (some "T")).2.1, []) := by
  have h := RequestLink_cooldown_rate_limited ⟨[], [], []⟩ "c" "c" "B" "T" 0 5 none
    (by decide) (by decide) (by decide)
  exact ⟨h.1, h.2⟩

/-- C6: the reject path of `protect_chat` is best-effort.  On rejection
the store is untouched, the platform calls are a ban followed by an
unban when the ban succeeds, and just the ban when the ban raises (the
failure is swallowed, there is no retry); an unban failure changes
nothing; and the handler returns normally in all cases (the function is
total, so equality of results is well-defined). -/
theorem protect_chat_reject_best_effort (banOk unbanOk unbanOk2 : Bool)
    (now : Int) (store : CredStore) (e : ChatMemberEvent)
    (hrej : (protect_chat banOk unbanOk now store e).decision = Decision.rejected) :
    (protect_chat banOk unbanOk now store e).store = store
    ∧ (protect_chat banOk unbanOk now store e).calls = evictionCalls banOk e
    ∧ evictionCalls true e = [BotCall.ban_chat_member e.chat_id e.user_id,
        BotCall.unban_chat_member e.chat_id e.user_id]
    ∧ evictionCalls false e = [BotCall.ban_chat_member e.chat_id e.user_id]
    ∧ protect_chat banOk unbanOk now store e = protect_chat banOk unbanOk2 now store e := by
  have huo : protect_chat banOk unbanOk now store e
      = protect_chat banOk unbanOk2 now store e := rfl
  have hres : protect_chat banOk unbanOk now store e
      = ⟨Decision.rejected, store, evictionCalls banOk e, true⟩ := by
    by_cases hns : e.new_status ≠ "member" ∧ e.new_status ≠ "restricted"
    · rw [protect_chat_eq_ignored banOk unbanOk now store e hns] at hrej
      exact absurd hrej (by simp)
    · cases hrow : lookupCred store e.user_id with
      | none => exact protect_chat_eq_reject_none banOk unbanOk now store e hns hrow
      | some row =>
          by_cases hc : e.invite_link ≠ row.invite_link ∨ now > row.expire + LINK_GRACE
          · exact protect_chat_eq_reject_stale banOk unbanOk now store e row hns hrow hc
          · rw [protect_chat_eq_accept banOk unbanOk now store e row hns hrow hc] at hrej
            exact absurd hrej (by simp)
  rw [hres]
  exact ⟨rfl, rfl, rfl, rfl, hres ▸ huo⟩

/-- C6 witness: a join by a user with no credential row is rejected with
the store untouched and ban/unban attempted; with a failing ban only the
ban call appears. -/
theorem protect_chat_reject_best_effort_witness :
    (protect_chat true true 20 [("A", ⟨some "T", 15⟩)] ⟨"member", "B", some "T", 7⟩).store
      = [("A", ⟨some "T", 15⟩)]
    ∧ (protect_chat true true 20 [("A", ⟨some "T", 15⟩)]
        ⟨"member", "B", some "T", 7⟩).calls
      = [BotCall.ban_chat_member 7 "B", BotCall.unban_chat_member 7 "B"]
    ∧ (protect_chat false true 20 [("A", ⟨some "T", 15⟩)]
        ⟨"member", "B", some "T", 7⟩).calls
      = [BotCall.ban_chat_member 7 "B"] := by
  have h1 := protect_chat_reject_best_effort true true true 20
    [("A", ⟨some "T", 15⟩)] ⟨"member", "B", some "T", 7⟩ (by decide)
  have h2 := protect_chat_reject_best_effort false true true 20
    [("A", ⟨some "T", 15⟩)] ⟨"member", "B", some "T", 7⟩ (by decide)
  exact ⟨h1.1, h1.2.1.trans h1.2.2.1, h2.2.1.trans h2.2.2.2.1⟩

/-- C7: when the guarded-chat setting (`get_setting "private_chat_id"` =
`none`) is absent, `RequestLink` fails with `NotConfigured`, changes no
state and makes no platform call. -/
theorem RequestLink_not_configured (st : IssuerState) (uid : String) (now : Int)
    (inv : Option String) :
    RequestLink none st uid now inv = (LinkOutcome.notConfigured, st, []) := rfl

/-- The loop of `safe_send` makes at most `fuel` call attempts. -/
theorem safe_sendGo_attempts_le (out : Nat → AttemptOutcome) (fuel i : Nat) :
    attemptCount (safe_sendGo out fuel i).2 ≤ fuel := by
  induction fuel generalizing i with
  | zero => simp [safe_sendGo, attemptCount]
  | succ n ih =>
      cases h : out i with
      | success v => simp [safe_sendGo, h, attemptCount, List.countP_cons]
      | forbidden => simp [safe_sendGo, h, attemptCount, List.countP_cons]
      | transient =>
          have := ih (i + 1)
          simp [safe_sendGo, h, attemptCount, List.countP_cons] at *
          omega

/-- Every call attempt of the loop is immediately preceded by the
`random.uniform(0.3, 1.2)` jitter sleep. -/
theorem safe_sendGo_preJittered (out : Nat → AttemptOutcome) (fuel i : Nat) :
    preJittered (safe_sendGo out fuel i).2 = true := by
  induction fuel generalizing i with
  | zero => rfl
  | succ n ih =>
      cases h : out i with
      | success v => simp [safe_sendGo, h, preJittered]
      | forbidden => simp [safe_sendGo, h, preJittered]
      | transient =>
          have := ih (i + 1)
          simp only [safe_sendGo, h]
          show (((3 == 3 && 12 == 12)) && preJittered
            (SendEvent.sleepFixed 20 :: (safe_sendGo out n (i + 1)).2)) = true
          simpa [preJittered] using this

/-- C8: the retry policy of `safe_send`.  Every wrapped platform call is
attempted at most 3 times; every attempt is immediately preceded by the
uniform 0.3–1.2 s jitter sleep; a `Forbidden` error terminates
immediately with result `None` after that single attempt (no retry); a
transient error (`TimedOut`, `NetworkError`, `RetryAfter`) causes a
fixed 2 s sleep before the next attempt; and when all three attempts are
transient failures the function returns `None` — a value, not a
propagated exception.  Durations are in tenths of a second. -/
theorem safe_send_retry_policy (out : Nat → AttemptOutcome) :
    attemptCount (safe_send out).2 ≤ 3
    ∧ preJittered (safe_send out).2 = true
    ∧ (out 0 = AttemptOutcome.forbidden →
        safe_send out = (none, [SendEvent.sleepUniform 3 12, SendEvent.callAttempt]))
    ∧ ((∀ i, out i = AttemptOutcome.transient) →
        safe_send out = (none,
          [SendEvent.sleepUniform 3 12, SendEvent.callAttempt, SendEvent.sleepFixed 20,
           SendEvent.sleepUniform 3 12, SendEvent.callAttempt, SendEvent.sleepFixed 20,
           SendEvent.sleepUniform 3 12, SendEvent.callAttempt, SendEvent.sleepFixed 20])) := by
  refine ⟨safe_sendGo_attempts_le out 3 0, safe_sendGo_preJittered out 3 0,
    fun h0 => ?_, fun hall => ?_⟩
  · simp [safe_send, safe_sendGo, h0]
  · simp [safe_send, safe_sendGo, hall 0, hall 1, hall 2]

/-- C8 witness: with every attempt transient the wrapper makes exactly
3 attempts and returns `None`; with an immediate `Forbidden` it stops
after 1 attempt. -/
theorem safe_send_retry_policy_witness :
    safe_send (fun _ => AttemptOutcome.transient)
      = (none,
         [SendEvent.sleepUniform 3 12, SendEvent.callAttempt, SendEvent.sleepFixed 20,
          SendEvent.sleepUniform 3 12, SendEvent.callAttempt, SendEvent.sleepFixed 20,
          SendEvent.sleepUniform 3 12, SendEvent.callAttempt, SendEvent.sleepFixed 20])
    ∧ safe_send (fun _ => AttemptOutcome.forbidden)
      = (none, [SendEvent.sleepUniform 3 12, SendEvent.callAttempt])
    ∧ attemptCount (safe_send (fun _ => AttemptOutcome.transient)).2 ≤ 3 := by
  refine ⟨(safe_send_retry_policy (fun _ => AttemptOutcome.transient)).2.2.2
      (fun _ => rfl),
    (safe_send_retry_policy (fun _ => AttemptOutcome.forbidden)).2.2.1 rfl,
    (safe_send_retry_policy (fun _ => AttemptOutcome.transient)).1⟩

/-- Interleaving with an empty left task is the identity. -/
theorem interleave_nil_left {α : Type} {xs ys zs : List α}
    (h : Interleave xs ys zs) (hx : xs = []) : zs = ys := by
  induction h with
  | nil => rfl
  | left h ih => cases hx
  | right h ih => rw [ih hx]

/-- A single-element left task appears as one intact element of any
interleaving, with the right task split around it. -/
theorem interleave_single_left {α : Type} {xs ys zs : List α}
    (h : Interleave xs ys zs) (seg : α) (hx : xs = [seg]) :
    ∃ pre post, zs = pre ++ seg :: post ∧ ys = pre ++ post := by
  induction h with
  | nil => cases hx
  | left h ih =>
      obtain ⟨h1, h2⟩ := List.cons.injEq _ _ _ _ ▸ hx
      subst h1
      exact ⟨[], _, rfl, (interleave_nil_left h h2).symm⟩
  | right h ih =>
      rename_i y _ _ _
      obtain ⟨pre, post, h1, h2⟩ := ih hx
      exact ⟨y :: pre, post, by simp [h1], by simp [h2]⟩

/-- C9: per-user atomicity of validation.  The accept path of
`protect_chat` performs its SELECT and DELETE with no `await` between
them (the only suspension points of the handler are the ban/unban calls
of the reject branch), so it is one segment; in every cooperative
schedule the two operations are therefore adjacent — no operation of a
concurrent issuance task can fall between the read and the delete.
Moreover a join validated against a credential whose token differs from
the event's (the fresh credential written by a new issuance) is
rejected with the store untouched, so the fresh credential is never
deleted as a side effect of validating a stale join. -/
theorem protect_chat_accept_path_atomic (uid : String)
    (issuerSegs sched : List Segment)
    (h : Interleave (guardAcceptTask uid) issuerSegs sched) :
    (∃ pre post,
        sched = pre ++ [StoreOp.read uid, StoreOp.del uid] :: post
        ∧ issuerSegs = pre ++ post
        ∧ sched.flatten = pre.flatten ++
            StoreOp.read uid :: StoreOp.del uid :: post.flatten)
    ∧ (∀ (banOk unbanOk : Bool) (now : Int) (s : CredStore) (e : ChatMemberEvent)
        (row : CredRow), lookupCred s e.user_id = some row →
          e.invite_link ≠ row.invite_link →
          (protect_chat banOk unbanOk now s e).store = s) := by
  constructor
  · obtain ⟨pre, post, h1, h2⟩ :=
      interleave_single_left h [StoreOp.read uid, StoreOp.del uid] rfl
    exact ⟨pre, post, h1, h2, by simp [h1]⟩
  · intro banOk unbanOk now s e row hrow hne
    by_cases hns : e.new_status ≠ "member" ∧ e.new_status ≠ "restricted"
    · rw [protect_chat_eq_ignored banOk unbanOk now s e hns]
    · rw [protect_chat_eq_reject_stale banOk unbanOk now s e row hns hrow (Or.inl hne)]

/-- C9 witness: a concrete schedule where the issuer's upsert is
delivered between the two tasks — the guard's read and delete stay
adjacent — and a concrete stale join against a replaced credential that
leaves the store unchanged. -/
theorem protect_chat_accept_path_atomic_witness :
    (∃ pre post,
        [[StoreOp.upsert "A" ⟨some "U", 40⟩], [StoreOp.read "A", StoreOp.del "A"]]
          = pre ++ [StoreOp.read "A", StoreOp.del "A"] :: post
        ∧ [[StoreOp.upsert "A" ⟨some "U", 40⟩]] = pre ++ post
        ∧ ([[StoreOp.upsert "A" (⟨some "U", 40⟩ : CredRow)],
            [StoreOp.read "A", StoreOp.del "A"]] : List Segment).flatten
          = pre.flatten ++ StoreOp.read "A" :: StoreOp.del "A" :: post.flatten)
    ∧ (protect_chat true true 20 [("A", ⟨some "U", 40⟩)]
        ⟨"member", "A", some "T", 7⟩).store = [("A", ⟨some "U", 40⟩)] := by
  have h := protect_chat_accept_path_atomic "A"
    [[StoreOp.upsert "A" ⟨some "U", 40⟩]]
    [[StoreOp.upsert "A" ⟨some "U", 40⟩], [StoreOp.read "A", StoreOp.del "A"]]
    (Interleave.right (Interleave.left Interleave.nil))
  exact ⟨h.1, h.2 true true 20 [("A", ⟨some "U", 40⟩)]
    ⟨"member", "A", some "T", 7⟩ ⟨some "U", 40⟩ (by decide) (by decide)⟩

/-- C10: `main` registers `CommandHandler`s for `link`, `bots` and
`sites`, but none of these names is defined at module level, so calling
`main` hits an unresolvable global name — the first one being `link` —
and raises `NameError` before `run_polling` is reached; consequently no
INSERT in the source targets `active_links`, `last_requests` or
`link_locks`, and the only function touching `active_links`
(`protect_chat`) only ever leaves the table unchanged or deletes a row,
never adds one. -/
theorem main_link_handler_undefined :
    mainResult = MainResult.nameError "link"
    ∧ "link" ∉ moduleFunctionNames
    ∧ "bots" ∉ moduleFunctionNames
    ∧ "sites" ∉ moduleFunctionNames
    ∧ "link" ∈ mainHandlerRefs ∧ "bots" ∈ mainHandlerRefs ∧ "sites" ∈ mainHandlerRefs
    ∧ "active_links" ∉ insertTargetTables
    ∧ "last_requests" ∉ insertTargetTables
    ∧ "link_locks" ∉ insertTargetTables
    ∧ (∀ (banOk unbanOk : Bool) (now : Int) (s : CredStore) (e : ChatMemberEvent),
        (protect_chat banOk unbanOk now s e).store = s
        ∨ (protect_chat banOk unbanOk now s e).store = deleteCred s e.user_id) := by
  refine ⟨by decide, by decide, by decide, by decide, by decide, by decide, by decide,
    by decide, by decide, by decide, ?_⟩
  intro banOk unbanOk now s e
  by_cases hns : e.new_status ≠ "member" ∧ e.new_status ≠ "restricted"
  · left; rw [protect_chat_eq_ignored banOk unbanOk now s e hns]
  · cases hrow : lookupCred s e.user_id with
    | none => left; rw [protect_chat_eq_reject_none banOk unbanOk now s e hns hrow]
    | some row =>
        by_cases hc : e.invite_link ≠ row.invite_link ∨ now > row.expire + LINK_GRACE
        · left; rw [protect_chat_eq_reject_stale banOk unbanOk now s e row hns hrow hc]
        · right; rw [protect_chat_eq_accept banOk unbanOk now s e row hns hrow hc]
